import Mathlib

/-!
Shallow embedding of the cxid9114_gain repository for specification checking.

Sources embedded:
* src/format/FormatD9114.py   - detector format reader (configuration recognition,
  pppg common-mode keyword-argument derivation)
* src/geom/geom_utils.py      - psana 32-sensor to 64-tile geometry splitter
* src/two_color_refuge/two_color_indexer.py - two-color indexing: basis-vector
  selection, candidate filtering, lattice finding, reflection assignment and
  duplicate reconciliation, final consolidation.

Floating-point values of the source are modelled with exact rationals; external
toolkit primitives (numpy's Euclidean norm, dials' is_approximate_integer_multiple,
the best-orientation scorer) are parameters of the embedded functions, constrained
only by hypotheses where a claim needs them.
-/

set_option autoImplicit false

namespace D9114

/-! ### Format reader: src/format/FormatD9114.py -/

/-- Nested d9114 configuration block of the phil locator scope
(FormatD9114.py lines 13-32).  Each `*_zero_peak` option is the
(start, end, sample count) triple of the source's `floats(size=3)`. -/
structure D9114Block where
  common_mode_algo : String
  low_gain_zero_peak : ℚ × ℚ × ℚ
  high_gain_zero_peak : ℚ × ℚ × ℚ
  savgol_polyorder : ℤ
  savgol_windowlength : ℤ
deriving DecidableEq

/-- Well-formed (successfully parsed) locator configuration: the top-level
`experiment` key plus the nested `d9114` block. -/
structure LocatorParams where
  experiment : String
  d9114 : D9114Block
deriving DecidableEq

/-- Keyword-argument set handed to the external pppg common-mode correction
(FormatD9114.py lines 74-79). -/
structure PppgArgs where
  low_x1 : ℚ
  low_x2 : ℚ
  Nlow : ℚ
  high_x1 : ℚ
  high_x2 : ℚ
  Nhigh : ℚ
  polyorder : ℤ
  window_length : ℤ
  inplace : Bool
  plot_details : Bool
  verbose : Bool
  plot_metric : Bool
deriving DecidableEq

/-- FormatD9114._set_pppg_args (FormatD9114.py lines 67-79).  Line 73 of the
source unpacks `h1, h2, Nh` from `low_gain_zero_peak` (not from
`high_gain_zero_peak`), and the dictionary entry for `high_x2` is the literal
`l2`; both are reproduced here verbatim. -/
def set_pppg_args (p : LocatorParams) : PppgArgs :=
  let l1 := p.d9114.low_gain_zero_peak.1
  let l2 := p.d9114.low_gain_zero_peak.2.1
  let Nl := p.d9114.low_gain_zero_peak.2.2
  let h1 := p.d9114.low_gain_zero_peak.1
  let Nh := p.d9114.low_gain_zero_peak.2.2
  { low_x1 := l1, low_x2 := l2, Nlow := Nl,
    high_x1 := h1, high_x2 := l2, Nhigh := Nh,
    polyorder := p.d9114.savgol_polyorder,
    window_length := p.d9114.savgol_windowlength,
    inplace := true, plot_details := false, verbose := false,
    plot_metric := false }

/-- FormatD9114.understand (FormatD9114.py lines 87-91), applied to an
already-parsed configuration: the parse itself (phil) is external, and a parse
failure propagates before this predicate runs. -/
def understand (p : LocatorParams) : Bool :=
  p.experiment == "cxid9114" &&
    ["default", "pppg", "unbonded"].contains p.d9114.common_mode_algo

/-! ### Geometry: src/geom/geom_utils.py -/

/-- Three-component vector over exact rationals (a row of the psf arrays). -/
structure Vec3 where
  x : ℚ
  y : ℚ
  z : ℚ
deriving DecidableEq

/-- Componentwise vector sum. -/
def vadd (a b : Vec3) : Vec3 := ⟨a.x + b.x, a.y + b.y, a.z + b.z⟩

/-- Scalar multiple of a vector. -/
def smul (c : ℚ) (a : Vec3) : Vec3 := ⟨c * a.x, c * a.y, c * a.z⟩

/-- Euclidean inner product. -/
def dot (a b : Vec3) : ℚ := a.x * b.x + a.y * b.y + a.z * b.z

/-- One entry of the psf tuple list: (origin, slow-scan, fast-scan) for one of
the 32 physical sensors (geom_utils.py line 57 unpacks them in this order). -/
structure PsfEntry where
  origin : Vec3
  ss : Vec3
  fs : Vec3
deriving DecidableEq

/-- Inter-ASIC gap constant of geom_utils.py line 61:
`194. * 109.92 + (274.8 - 109.92) * 2.` micrometers, as an exact rational. -/
def shift : ℚ := 194 * (10992 / 100) + (2748 / 10 - 10992 / 100) * 2

/-- Origin rows of the 64-long split geometry (geom_utils.py lines 58-69):
for each sensor, tile A keeps the origin and tile B is displaced by `shift`
along the normalized fast-scan direction.  `norm` stands for the external
`np.linalg.norm`. -/
def splitOrigins (norm : Vec3 → ℚ) : List PsfEntry → List Vec3
  | [] => []
  | e :: rest =>
      e.origin ::
        vadd e.origin (smul shift (smul (1 / norm e.fs) e.fs)) ::
          splitOrigins norm rest

/-- Duplicates each list entry (geom_utils.py lines 70-71 store the same
slow/fast vector at indices 2i and 2i+1). -/
def dupEach {α : Type} : List α → List α
  | [] => []
  | v :: rest => v :: v :: dupEach rest

/-- Slow-scan rows of the split geometry. -/
def splitSlow (l : List PsfEntry) : List Vec3 := dupEach (l.map (fun e => e.ss))

/-- Fast-scan rows of the split geometry. -/
def splitFast (l : List PsfEntry) : List Vec3 := dupEach (l.map (fun e => e.fs))

/-- Result arrays of psana_geom_splitter, named as in the source. -/
structure Psf64 where
  origin_64 : List Vec3
  SS_64 : List Vec3
  FS_64 : List Vec3
deriving DecidableEq

/-- Failure of the splitter before the unit dispatch: indexing `origin_32[i]`
for i up to 31 raises when fewer than 32 sensors are supplied. -/
inductive SplitErr where
  | indexError
deriving DecidableEq

/-- psana_geom_splitter (geom_utils.py lines 40-78).  The source's
`for i in range(32)` loop reads exactly the first 32 entries; the trailing
unit dispatch returns converted arrays for "mm"/"um"/"pixels" and falls off
the function end (Python `None`) for any other string, modelled as
`Except.ok none`. -/
def psana_geom_splitter (norm : Vec3 → ℚ) (psf : List PsfEntry)
    (returned_units : String) : Except SplitErr (Option Psf64) :=
  if psf.length < 32 then .error .indexError
  else
    let ent := psf.take 32
    let o := splitOrigins norm ent
    let s := splitSlow ent
    let f := splitFast ent
    if returned_units = "mm" then
      .ok (some ⟨o.map (smul (1 / 1000)), s.map (smul (1 / 1000)),
                 f.map (smul (1 / 1000))⟩)
    else if returned_units = "um" then
      .ok (some ⟨o, s, f⟩)
    else if returned_units = "pixels" then
      .ok (some ⟨o.map (smul (100 / 10992)), s.map (smul (100 / 10992)),
                 f.map (smul (100 / 10992))⟩)
    else .ok none

end D9114

namespace D9114

/-! ### Helper lemmas for the split geometry -/

lemma splitOrigins_length (norm : Vec3 → ℚ) (l : List PsfEntry) :
    (splitOrigins norm l).length = 2 * l.length := by
  induction l with
  | nil => rfl
  | cons e rest ih => simp [splitOrigins, ih]; ring

lemma dupEach_length {α : Type} (l : List α) :
    (dupEach l).length = 2 * l.length := by
  induction l with
  | nil => rfl
  | cons v rest ih => simp [dupEach, ih]; ring

lemma splitOrigins_get2i (norm : Vec3 → ℚ) (l : List PsfEntry) (i : ℕ) :
    (splitOrigins norm l)[2 * i]? = (l[i]?).map (fun e => e.origin) := by
  induction l generalizing i with
  | nil => simp [splitOrigins]
  | cons e rest ih =>
    cases i with
    | zero => simp [splitOrigins]
    | succ k =>
      have h2 : 2 * (k + 1) = (2 * k) + 1 + 1 := by ring
      rw [h2]
      simp [splitOrigins, ih k]

lemma splitOrigins_get2i1 (norm : Vec3 → ℚ) (l : List PsfEntry) (i : ℕ) :
    (splitOrigins norm l)[2 * i + 1]? =
      (l[i]?).map
        (fun e => vadd e.origin (smul shift (smul (1 / norm e.fs) e.fs))) := by
  induction l generalizing i with
  | nil => simp [splitOrigins]
  | cons e rest ih =>
    cases i with
    | zero => simp [splitOrigins]
    | succ k =>
      have h2 : 2 * (k + 1) + 1 = (2 * k + 1) + 1 + 1 := by ring
      rw [h2]
      simp [splitOrigins, ih k]

lemma dupEach_get2i {α : Type} (l : List α) (i : ℕ) :
    (dupEach l)[2 * i]? = l[i]? := by
  induction l generalizing i with
  | nil => simp [dupEach]
  | cons v rest ih =>
    cases i with
    | zero => simp [dupEach]
    | succ k =>
      have h2 : 2 * (k + 1) = (2 * k) + 1 + 1 := by ring
      rw [h2]
      simp [dupEach, ih k]

lemma dupEach_get2i1 {α : Type} (l : List α) (i : ℕ) :
    (dupEach l)[2 * i + 1]? = l[i]? := by
  induction l generalizing i with
  | nil => simp [dupEach]
  | cons v rest ih =>
    cases i with
    | zero => simp [dupEach]
    | succ k =>
      have h2 : 2 * (k + 1) + 1 = (2 * k + 1) + 1 + 1 := by ring
      rw [h2]
      simp [dupEach, ih k]

lemma dot_smul_smul (c : ℚ) (v : Vec3) : dot (smul c v) (smul c v) = c ^ 2 * dot v v := by
  simp [dot, smul]; ring

/-- C2. For every configuration, the common-mode keyword-argument set passed to
pppg derives start, end and sample count of the high-gain zero peak from the
configured low-gain option, the high-gain upper bound equals the low-gain upper
bound, and the configured high-gain option has no effect on the result. -/
theorem pppg_args_derived_from_low_gain (p : LocatorParams) :
    (set_pppg_args p).high_x1 = p.d9114.low_gain_zero_peak.1 ∧
    (set_pppg_args p).high_x2 = p.d9114.low_gain_zero_peak.2.1 ∧
    (set_pppg_args p).Nhigh = p.d9114.low_gain_zero_peak.2.2 ∧
    (set_pppg_args p).high_x2 = (set_pppg_args p).low_x2 ∧
    ∀ q : ℚ × ℚ × ℚ,
      set_pppg_args { p with d9114 := { p.d9114 with high_gain_zero_peak := q } } =
        set_pppg_args p :=
  ⟨rfl, rfl, rfl, rfl, fun _ => rfl⟩

/-- C5. On every well-formed configuration, the recognition check returns true
iff the experiment identifier is literally "cxid9114" and the common-mode
selector is one of default, pppg, unbonded; it is a total boolean function, so
any other well-formed configuration yields false without raising. -/
theorem understand_iff (p : LocatorParams) :
    understand p = true ↔
      (p.experiment = "cxid9114" ∧
        (p.d9114.common_mode_algo = "default" ∨
         p.d9114.common_mode_algo = "pppg" ∨
         p.d9114.common_mode_algo = "unbonded")) := by
  simp only [understand, Bool.and_eq_true, beq_iff_eq, List.elem_iff,
    List.mem_cons, List.not_mem_nil, or_false]

/-- C7. For every 32-entry sensor geometry (and any model of the external
Euclidean norm that is positive and squares to the inner product on the fast
vectors), the splitter produces 64-length origin/slow/fast arrays in which tile
2i keeps sensor i's origin, both tiles carry sensor i's slow and fast vectors
unchanged, and tile 2i+1's origin is offset along the normalized fast direction
by a vector of squared magnitude shift^2 (shift = 194*109.92+(274.8-109.92)*2
micrometers). -/
theorem split_sensor_geometry_spec (norm : Vec3 → ℚ) (psf : List PsfEntry)
    (h32 : psf.length = 32)
    (hn : ∀ e ∈ psf, (norm e.fs) ^ 2 = dot e.fs e.fs ∧ 0 < norm e.fs) :
    ∃ p : Psf64,
      psana_geom_splitter norm psf "um" = .ok (some p) ∧
      p.origin_64.length = 64 ∧ p.SS_64.length = 64 ∧ p.FS_64.length = 64 ∧
      ∀ i : ℕ, i < 32 → ∀ e : PsfEntry, psf[i]? = some e →
        p.origin_64[2 * i]? = some e.origin ∧
        p.SS_64[2 * i]? = some e.ss ∧ p.SS_64[2 * i + 1]? = some e.ss ∧
        p.FS_64[2 * i]? = some e.fs ∧ p.FS_64[2 * i + 1]? = some e.fs ∧
        ∃ off : Vec3,
          p.origin_64[2 * i + 1]? = some (vadd e.origin off) ∧
          off = smul shift (smul (1 / norm e.fs) e.fs) ∧
          dot off off = shift ^ 2 := by
  have htake : psf.take 32 = psf := by
    rw [← h32]; exact List.take_length psf
  refine ⟨⟨splitOrigins norm psf, splitSlow psf, splitFast psf⟩, ?_, ?_, ?_, ?_, ?_⟩
  · unfold psana_geom_splitter
    rw [if_neg (by omega), htake]
    rw [if_neg (by decide), if_pos rfl]
  · simp [splitOrigins_length, h32]
  · simp [splitSlow, dupEach_length, h32]
  · simp [splitFast, dupEach_length, h32]
  · intro i _ e he
    refine ⟨?_, ?_, ?_, ?_, ?_, ?_⟩
    · rw [splitOrigins_get2i, he]; rfl
    · rw [splitSlow, dupEach_get2i, List.getElem?_map, he]; rfl
    · rw [splitSlow, dupEach_get2i1, List.getElem?_map, he]; rfl
    · rw [splitFast, dupEach_get2i, List.getElem?_map, he]; rfl
    · rw [splitFast, dupEach_get2i1, List.getElem?_map, he]; rfl
    · refine ⟨smul shift (smul (1 / norm e.fs) e.fs), ?_, rfl, ?_⟩
      · rw [splitOrigins_get2i1, he]; rfl
      · have hmem : e ∈ psf := List.getElem?_mem he
        obtain ⟨hsq, hpos⟩ := hn e hmem
        have hne : norm e.fs ≠ 0 := ne_of_gt hpos
        rw [dot_smul_smul, dot_smul_smul]
        rw [← hsq]
        field_simp

/-- Witness for C7 at a concrete 32-sensor geometry with unit fast vectors and
the norm modelled as the constant 1. -/
theorem split_sensor_geometry_spec_witness :
    ∃ p : Psf64,
      psana_geom_splitter (fun _ => 1)
          (List.replicate 32 ⟨⟨0, 0, 0⟩, ⟨0, 1, 0⟩, ⟨1, 0, 0⟩⟩) "um" =
        .ok (some p) ∧
      p.origin_64.length = 64 ∧ p.SS_64.length = 64 ∧ p.FS_64.length = 64 ∧
      ∀ i : ℕ, i < 32 → ∀ e : PsfEntry,
        (List.replicate 32
            (⟨⟨0, 0, 0⟩, ⟨0, 1, 0⟩, ⟨1, 0, 0⟩⟩ : PsfEntry))[i]? = some e →
        p.origin_64[2 * i]? = some e.origin ∧
        p.SS_64[2 * i]? = some e.ss ∧ p.SS_64[2 * i + 1]? = some e.ss ∧
        p.FS_64[2 * i]? = some e.fs ∧ p.FS_64[2 * i + 1]? = some e.fs ∧
        ∃ off : Vec3,
          p.origin_64[2 * i + 1]? = some (vadd e.origin off) ∧
          off = smul shift (smul (1 / (1 : ℚ)) e.fs) ∧
          dot off off = shift ^ 2 := by
  have h := split_sensor_geometry_spec (fun _ => 1)
      (List.replicate 32 ⟨⟨0, 0, 0⟩, ⟨0, 1, 0⟩, ⟨1, 0, 0⟩⟩)
      (by decide)
      (by
        intro e he
        have : e = ⟨⟨0, 0, 0⟩, ⟨0, 1, 0⟩, ⟨1, 0, 0⟩⟩ :=
          List.eq_of_mem_replicate he
        subst this
        constructor
        · norm_num [dot]
        · norm_num)
  exact h

/-- C10. For every 32-entry sensor geometry and every unit string other than
"mm", "um" and "pixels", the splitter returns Python None (no value), not an
error and not converted arrays. -/
theorem splitter_unknown_units_none (norm : Vec3 → ℚ) (psf : List PsfEntry)
    (units : String) (h32 : psf.length = 32)
    (h1 : units ≠ "mm") (h2 : units ≠ "um") (h3 : units ≠ "pixels") :
    psana_geom_splitter norm psf units = .ok none := by
  unfold psana_geom_splitter
  rw [if_neg (by omega), if_neg h1, if_neg h2, if_neg h3]

/-- Witness for C10 at a concrete geometry and the unit string "cm". -/
theorem splitter_unknown_units_none_witness :
    psana_geom_splitter (fun _ => 1)
        (List.replicate 32 ⟨⟨0, 0, 0⟩, ⟨0, 1, 0⟩, ⟨1, 0, 0⟩⟩) "cm" = .ok none :=
  splitter_unknown_units_none (fun _ => 1) _ "cm" (by decide)
    (by decide) (by decide) (by decide)

end D9114

namespace TwoColor

open D9114 (Vec3 dot)

/-! ### Two-color indexer: src/two_color_refuge/two_color_indexer.py -/

/-- Number of unique basis vectors retained by the grid search
(two_color_indexer.py line 48). -/
def N_UNIQUE_V : ℕ := 60

/-- Miller index triple. -/
abbrev Miller := ℤ × ℤ × ℤ

/-- Experiment-id constants of index_reflections_detail
(two_color_indexer.py lines 68-70). -/
def low_energy : ℤ := 0

/-- High-energy experiment id. -/
def high_energy : ℤ := 1

/-- Average-energy (overlap) experiment id. -/
def avg_energy : ℤ := 2

/-- Per-reflection mutable columns touched by the assignment step:
miller_index, id and rlp. -/
structure ReflAssign where
  miller : Miller
  id : ℤ
  rlp : Vec3
deriving DecidableEq

/-- flex.min_index on the two-element vector [n0, n1]: index of the first
occurrence of the minimum (two_color_indexer.py line 132). -/
def min_index2 (n0 n1 : ℚ) : ℤ := if n1 < n0 then 1 else 0

/-- Per-reflection body of the assignment loop of index_reflections_detail
(two_color_indexer.py lines 118-142): pick the wavelength with the smaller
residual norm, reject (`continue`, leaving the reflection untouched and
incrementing n_rejects) when the winning residual exceeds the tolerance,
otherwise write miller_index, id and rlp of the winning wavelength. -/
def assign_step (tolerance n0 n1 : ℚ) (hkl0 hkl1 : Miller) (rlp0 rlp1 : Vec3)
    (r : ReflAssign) (n_rejects : ℕ) : ReflAssign × ℕ :=
  let i_best : ℤ :=
    if n0 > n1 then high_energy
    else if n0 < n1 then low_energy
    else min_index2 n0 n1
  let n_best := if i_best = 0 then n0 else n1
  if n_best > tolerance then (r, n_rejects + 1)
  else ({ miller := if i_best = 0 then hkl0 else hkl1,
          id := i_best,
          rlp := if i_best = 0 then rlp0 else rlp1 }, n_rejects)

/-- Inner body of the same-id duplicate-Miller-index pass
(two_color_indexer.py lines 156-172) for one pair (i, j) with j > i: the
guards skip pairs with different ids, ids in {-1, -2}, or an id of 2; then
the reflection with the smaller rlp norm gets id 1 (high_energy) and the
other gets id 0 (low_energy).  Returns the updated (id_i, id_j). -/
def samePairStep (crystal_i crystal_j : ℤ) (rlp_norm_i rlp_norm_j : ℚ) :
    ℤ × ℤ :=
  if crystal_i ≠ crystal_j then (crystal_i, crystal_j)
  else if crystal_i = -1 ∨ crystal_j = -1 ∨ crystal_i = -2 ∨ crystal_j = -2 then
    (crystal_i, crystal_j)
  else if crystal_i = 2 ∨ crystal_j = 2 then (crystal_i, crystal_j)
  else if rlp_norm_i < rlp_norm_j then (high_energy, low_energy)
  else if rlp_norm_j < rlp_norm_i then (low_energy, high_energy)
  else (crystal_i, crystal_j)

/-- Inner body of the overlap duplicate-reconciliation pass
(two_color_indexer.py lines 226-248) for one pair (i, j) with j > i.  Both
if/elif chains of the source test the local variables crystal_i/crystal_j
read before any write, so the second chain's conditions use the original
ids while its writes override the first chain's.  Returns (id_i, id_j). -/
def overlapPairStep (crystal_i crystal_j : ℤ) (var_i var_j : ℚ) : ℤ × ℤ :=
  if crystal_i = -1 ∨ crystal_j = -1 ∨ crystal_i = -2 ∨ crystal_j = -2 then
    (crystal_i, crystal_j)
  else if (crystal_i = 1 ∧ crystal_j = 0) ∨ (crystal_i = 0 ∧ crystal_j = 1) then
    (crystal_i, crystal_j)
  else
    let first :=
      if (crystal_i = 2 ∨ crystal_j = 2) ∧ var_i < var_j then (avg_energy, -2)
      else if (crystal_i = 2 ∨ crystal_j = 2) ∧ var_i > var_j then (-2, avg_energy)
      else (crystal_i, crystal_j)
    if (crystal_i = 2 ∧ crystal_j = 2) ∧ var_i < var_j then (avg_energy, -2)
    else if (crystal_i = 2 ∧ crystal_j = 2) ∧ var_i > var_j then (-2, avg_energy)
    else first

/-- C6. In the Miller-index assignment step the reflection goes to the
wavelength with the smaller residual norm (ties to the lower id, via
flex.min_index); when the winning residual exceeds the tolerance the
reflection is left unassigned (id -1, miller (0,0,0)) and the reject counter
is incremented by exactly one. -/
theorem assign_step_spec (tolerance n0 n1 : ℚ) (hkl0 hkl1 : Miller)
    (rlp0 rlp1 rlp_init : Vec3) (n_rejects : ℕ) :
    (n0 ≤ n1 → n0 ≤ tolerance →
      assign_step tolerance n0 n1 hkl0 hkl1 rlp0 rlp1
          ⟨(0, 0, 0), -1, rlp_init⟩ n_rejects =
        (⟨hkl0, 0, rlp0⟩, n_rejects)) ∧
    (n1 < n0 → n1 ≤ tolerance →
      assign_step tolerance n0 n1 hkl0 hkl1 rlp0 rlp1
          ⟨(0, 0, 0), -1, rlp_init⟩ n_rejects =
        (⟨hkl1, 1, rlp1⟩, n_rejects)) ∧
    (tolerance < n0 → tolerance < n1 →
      assign_step tolerance n0 n1 hkl0 hkl1 rlp0 rlp1
          ⟨(0, 0, 0), -1, rlp_init⟩ n_rejects =
        (⟨(0, 0, 0), -1, rlp_init⟩, n_rejects + 1)) := by
  refine ⟨?_, ?_, ?_⟩
  · intro hle htol
    unfold assign_step min_index2
    rcases lt_or_eq_of_le hle with hlt | heq
    · rw [if_neg (not_lt.mpr hle), if_pos hlt]
      simp [low_energy, not_lt.mpr htol]
    · subst heq
      rw [if_neg (lt_irrefl n0), if_neg (lt_irrefl n0), if_neg (lt_irrefl n0)]
      simp [not_lt.mpr htol]
  · intro hlt htol
    unfold assign_step
    rw [if_pos hlt]
    simp [high_energy, not_lt.mpr htol]
  · intro h0 h1
    unfold assign_step min_index2
    by_cases hgt : n0 > n1
    · rw [if_pos hgt]
      simp [high_energy, h1]
    · rw [if_neg hgt]
      by_cases hlt : n0 < n1
      · rw [if_pos hlt]
        simp [low_energy, h0]
      · rw [if_neg hlt, if_neg (not_lt.mpr (not_lt.mp hgt))]
        simp [h0]

/-- Witness for C6 at the spec's concrete residuals: (0.1, 0.5) at tolerance
0.3 assigns to the low-energy id with the low-energy Miller index and rlp;
(0.5, 0.6) rejects, leaving id -1 and miller (0,0,0) and bumping the counter
from 0 to 1. -/
theorem assign_step_spec_witness :
    assign_step (3/10) (1/10) (5/10) (1, 2, 3) (4, 5, 6)
        ⟨1, 0, 0⟩ ⟨0, 1, 0⟩ ⟨(0, 0, 0), -1, ⟨0, 0, 0⟩⟩ 0 =
      (⟨(1, 2, 3), 0, ⟨1, 0, 0⟩⟩, 0) ∧
    assign_step (3/10) (5/10) (6/10) (1, 2, 3) (4, 5, 6)
        ⟨1, 0, 0⟩ ⟨0, 1, 0⟩ ⟨(0, 0, 0), -1, ⟨0, 0, 0⟩⟩ 0 =
      (⟨(0, 0, 0), -1, ⟨0, 0, 0⟩⟩, 1) := by
  constructor
  · exact (assign_step_spec (3/10) (1/10) (5/10) (1, 2, 3) (4, 5, 6)
      ⟨1, 0, 0⟩ ⟨0, 1, 0⟩ ⟨0, 0, 0⟩ 0).1 (by norm_num) (by norm_num)
  · exact (assign_step_spec (3/10) (5/10) (6/10) (1, 2, 3) (4, 5, 6)
      ⟨1, 0, 0⟩ ⟨0, 1, 0⟩ ⟨0, 0, 0⟩ 0).2.2 (by norm_num) (by norm_num)

/-- C9. Both duplicate-reconciliation pair steps use strict comparisons: with
exactly equal rlp norms (same-id pass) or exactly equal centroid variances
(overlap pass) neither reflection's id changes. -/
theorem pair_steps_strict_ties (crystal_i crystal_j : ℤ) (n v : ℚ) :
    samePairStep crystal_i crystal_j n n = (crystal_i, crystal_j) ∧
    overlapPairStep crystal_i crystal_j v v = (crystal_i, crystal_j) := by
  constructor
  · unfold samePairStep
    split_ifs <;> simp_all
  · unfold overlapPairStep
    split_ifs <;> simp_all

/-- Counterexample for C3: two reflections with the same non-zero Miller index
both assigned to id 0, with rlp norms 1 < 2.  The claim predicts the
smaller-norm reflection keeps id 0 and the other moves to id 1, i.e. result
(0, 1); the code instead moves the smaller-norm reflection to id 1 and the
larger to id 0. -/
theorem same_id_pair_counterexample :
    samePairStep 0 0 1 2 = (1, 0) ∧ samePairStep 0 0 1 2 ≠ (0, 1) := by
  constructor
  · decide
  · decide

/-- C3 as amended: for two reflections with the same non-zero Miller index at
the same id 0 or 1, the pass unconditionally gives the smaller-rlp-norm
reflection id 1 (high energy) and the larger id 0 (low energy) - coinciding
with the claim only when the shared id is 1 - and leaves both unchanged on an
exact tie; no id values other than 0 and 1 are produced. -/
theorem same_id_pair_swap_behavior (c : ℤ) (ni nj : ℚ)
    (hc : c = 0 ∨ c = 1) :
    samePairStep c c ni nj =
      (if ni < nj then ((1 : ℤ), (0 : ℤ))
       else if nj < ni then ((0 : ℤ), (1 : ℤ))
       else (c, c)) := by
  unfold samePairStep high_energy low_energy
  rcases hc with h | h <;> subst h <;> simp

/-- Witness for C3's amended theorem at shared id 1 with norms 1 < 2. -/
theorem same_id_pair_swap_behavior_witness :
    samePairStep 1 1 1 2 = (1, 0) := by
  have h := same_id_pair_swap_behavior 1 1 2 (Or.inr rfl)
  simpa using h

end TwoColor

namespace TwoColor

open D9114 (Vec3 dot)

/-! ### Unique basis-vector selection (two_color_grid_search, lines 454-470) -/

/-- Squared Euclidean norm.  The source compares `v.length() < v_u.length()`;
both lengths are nonnegative, so the comparison of squared norms used here is
equivalent and stays in exact arithmetic. -/
def normSq (v : Vec3) : ℚ := dot v v

/-- Inner for-loop over the already-kept vectors (lines 460-467): the
candidate is rejected when it is an approximate integer multiple of a kept
vector, tested shorter-against-longer as in the source.  `mult` stands for
the external dials is_approximate_integer_multiple, applied with the same
argument order as the source. -/
def isMultipleOfKept (mult : Vec3 → Vec3 → Bool) (v : Vec3)
    (kept : List Vec3) : Bool :=
  kept.any (fun v_u => if normSq v < normSq v_u then mult v v_u else mult v_u v)

/-- While-loop of lines 454-470.  The loop guard is only
`len(unique_vectors) < N_UNIQUE_V`; the body reads `vectors[i]` with an
ever-increasing `i`, so an exhausted candidate list is an out-of-range read,
modelled as `none`.  `first` is the source's `i > 0` test (negated); the list
argument carries the not-yet-visited suffix of `vectors`. -/
def selectUniqueGo (mult : Vec3 → Vec3 → Bool) :
    List Vec3 → List Vec3 → Bool → Option (List Vec3)
  | [], acc, _ => if acc.length < N_UNIQUE_V then none else some acc
  | v :: rest, acc, first =>
      if acc.length < N_UNIQUE_V then
        selectUniqueGo mult rest
          (if first || !(isMultipleOfKept mult v acc) then acc ++ [v] else acc)
          false
      else some acc

/-- Unique-vector selection over the full score-sorted candidate list. -/
def two_color_unique_vectors (mult : Vec3 → Vec3 → Bool)
    (vectors : List Vec3) : Option (List Vec3) :=
  selectUniqueGo mult vectors [] true

lemma selectUniqueGo_some (mult : Vec3 → Vec3 → Bool) :
    ∀ (vs acc : List Vec3) (first : Bool) (us : List Vec3),
      acc.length ≤ N_UNIQUE_V →
      selectUniqueGo mult vs acc first = some us →
      us.length = N_UNIQUE_V ∧ ∀ u ∈ us, u ∈ acc ∨ u ∈ vs := by
  intro vs
  induction vs with
  | nil =>
    intro acc first us hle h
    unfold selectUniqueGo at h
    by_cases hlt : acc.length < N_UNIQUE_V
    · rw [if_pos hlt] at h
      cases h
    · rw [if_neg hlt] at h
      cases h
      exact ⟨by omega, fun u hu => Or.inl hu⟩
  | cons v rest ih =>
    intro acc first us hle h
    unfold selectUniqueGo at h
    by_cases hlt : acc.length < N_UNIQUE_V
    · rw [if_pos hlt] at h
      set acc2 := if first || !(isMultipleOfKept mult v acc) then acc ++ [v]
        else acc with hacc2
      have hle2 : acc2.length ≤ N_UNIQUE_V := by
        rw [hacc2]
        by_cases hb : (first || !(isMultipleOfKept mult v acc)) = true
        · rw [if_pos hb]
          simp only [List.length_append, List.length_cons, List.length_nil]
          omega
        · rw [if_neg hb]
          omega
      obtain ⟨h1, h2⟩ := ih acc2 false us hle2 h
      refine ⟨h1, fun u hu => ?_⟩
      rcases h2 u hu with hin | hin
      · rw [hacc2] at hin
        by_cases hb : (first || !(isMultipleOfKept mult v acc)) = true
        · rw [if_pos hb] at hin
          rcases List.mem_append.mp hin with h3 | h3
          · exact Or.inl h3
          · have h4 : u = v := List.mem_singleton.mp h3
            subst h4
            exact Or.inr (List.mem_cons_self u rest)
        · rw [if_neg hb] at hin
          exact Or.inl hin
      · exact Or.inr (List.mem_cons_of_mem v hin)
    · rw [if_neg hlt] at h
      cases h
      exact ⟨by omega, fun u hu => Or.inl hu⟩

/-- Counterexample for C4: a candidate list holding a single vector yields at
most one unique vector, and the walk, whose only stopping condition is having
kept 60, reads past the end of the list (an out-of-range access, `none`)
instead of terminating normally. -/
theorem unique_vectors_exhaustion_counterexample :
    two_color_unique_vectors (fun _ _ => false) [⟨1, 0, 0⟩] = none := by
  decide

/-- C4 as amended: the walk keeps candidates greedily (skipping approximate
integer multiples of already-kept vectors, tested symmetrically by relative
magnitude) and stops only once 60 unique vectors are kept; whenever it
terminates normally the kept list has exactly N_UNIQUE_V = 60 vectors drawn
from the candidate list, and a candidate list yielding fewer than 60 unique
vectors instead ends in an out-of-range read (`none`). -/
theorem unique_vectors_success_length (mult : Vec3 → Vec3 → Bool)
    (vectors us : List Vec3)
    (h : two_color_unique_vectors mult vectors = some us) :
    us.length = N_UNIQUE_V ∧ ∀ u ∈ us, u ∈ vectors := by
  obtain ⟨h1, h2⟩ :=
    selectUniqueGo_some mult vectors [] true us (by simp [N_UNIQUE_V]) h
  refine ⟨h1, fun u hu => ?_⟩
  rcases h2 u hu with h3 | h3
  · exact absurd h3 (List.not_mem_nil u)
  · exact h3

/-- Sixty concrete candidate vectors for the C4 witness. -/
def sixtyVectors : List Vec3 := List.replicate N_UNIQUE_V ⟨1, 0, 0⟩

lemma isMultipleOfKept_false (v : Vec3) (kept : List Vec3) :
    isMultipleOfKept (fun _ _ => false) v kept = false := by
  induction kept with
  | nil => rfl
  | cons a t ih =>
    simp only [isMultipleOfKept, List.any_cons, ite_self, Bool.false_or] at ih ⊢
    exact ih

lemma selectUniqueGo_false_keeps :
    ∀ (vs acc : List Vec3) (first : Bool),
      acc.length + vs.length = N_UNIQUE_V →
      selectUniqueGo (fun _ _ => false) vs acc first = some (acc ++ vs) := by
  intro vs
  induction vs with
  | nil =>
    intro acc first h
    unfold selectUniqueGo
    rw [if_neg (by simp at h; omega)]
    simp
  | cons v rest ih =>
    intro acc first h
    unfold selectUniqueGo
    rw [if_pos (by simp at h ⊢; omega)]
    rw [if_pos (by simp [isMultipleOfKept_false])]
    rw [ih (acc ++ [v]) false (by simp at h ⊢; omega)]
    simp

/-- Witness for C4's amended theorem: on sixty candidate vectors, with the
external multiple-test returning false, the walk succeeds and the theorem
yields the kept-list length and membership. -/
theorem unique_vectors_success_length_witness :
    sixtyVectors.length = N_UNIQUE_V ∧ ∀ u ∈ sixtyVectors, u ∈ sixtyVectors :=
  unique_vectors_success_length (fun _ _ => false) sixtyVectors sixtyVectors
    (by
      have h := selectUniqueGo_false_keeps sixtyVectors [] true
        (by simp [sixtyVectors])
      simpa [two_color_unique_vectors] using h)

end TwoColor

namespace TwoColor

/-! ### Candidate filtering and find_lattices (two_color_indexer.py 323-551) -/

/-- Six unit-cell parameters (three edges, three angles), the value of
`get_unit_cell().parameters()` used by the magnitude filter. -/
structure UnitCellP where
  a : ℚ
  b : ℚ
  c : ℚ
  alpha : ℚ
  beta : ℚ
  gamma : ℚ
deriving DecidableEq

/-- FILTER_TOL of two_color_indexer.py line 519: (10, 3). -/
def FILTER_TOL : ℚ × ℚ := (10, 3)

/-- Edge comparison of the magnitude filter (lines 525-529):
`tol = 0.01 * FILTER_TOL[0] * target` and the open interval
(target - tol/2, target + tol/2). -/
def edge_ok (target uc : ℚ) : Bool :=
  let tol := (1 / 100) * FILTER_TOL.1 * target
  decide (target - tol / 2 < uc) && decide (uc < target + tol / 2)

/-- Angle comparison of the magnitude filter (lines 530-533): the open
interval (target - FILTER_TOL[1], target + FILTER_TOL[1]). -/
def angle_ok (target uc : ℚ) : Bool :=
  decide (target - FILTER_TOL.2 < uc) && decide (uc < target + FILTER_TOL.2)

/-- Candidate orientation matrix, abstracted to the only datum the filter and
the claims read from it: its derived unit cell. -/
structure CandidateMat where
  cell : UnitCellP
deriving DecidableEq

/-- Conjunction `all(comps)` of the six comparisons (lines 524-534). -/
def filter_by_mag_ok (target : UnitCellP) (c : CandidateMat) : Bool :=
  edge_ok target.a c.cell.a && edge_ok target.b c.cell.b &&
    edge_ok target.c c.cell.c && angle_ok target.alpha c.cell.alpha &&
    angle_ok target.beta c.cell.beta && angle_ok target.gamma c.cell.gamma

/-- FILTER_BY_MAG stage of two_color_grid_search (lines 516-539): keep the
candidates whose cells pass all six comparisons. -/
def two_color_filter (target : UnitCellP) (cands : List CandidateMat) :
    List CandidateMat :=
  cands.filter (filter_by_mag_ok target)

/-- Tail of two_color_grid_search (lines 541-560): the external
choose_best_orientation_matrix (parameter `chooseBest`) picks among the
filtered candidates; `crystal_models` is `[model]` on success and `[]` when
it returns none, stored as candidate_crystal_models. -/
def grid_search_models (chooseBest : List CandidateMat → Option CandidateMat)
    (target : UnitCellP) (cands : List CandidateMat) : List CandidateMat :=
  match chooseBest (two_color_filter target cands) with
  | some c => [c]
  | none => []

/-- Experiment record as produced by experiment_list_for_crystal: one beam
(by wavelength) paired with the shared crystal model. -/
structure TwoColorExperiment where
  beam : ℚ
  crystal : CandidateMat
deriving DecidableEq

/-- experiment_list_for_crystal (lines 323-334): one experiment per stored
beam, all sharing the crystal. -/
def experiment_list_for_crystal (beams : List ℚ) (c : CandidateMat) :
    List TwoColorExperiment :=
  beams.map (fun b => ⟨b, c⟩)

/-- Possible outcomes of find_lattices.  `noLatticeFound` is the typed
result the specification calls for; `assertionError` models the Python
AssertionError raised by `assert len(crystal_models) == 1`. -/
inductive LatticeOutcome where
  | found : List TwoColorExperiment → LatticeOutcome
  | noLatticeFound : LatticeOutcome
  | assertionError : LatticeOutcome
deriving DecidableEq

/-- find_lattices (two_color_indexer.py lines 336-343): run the grid search,
assert that exactly one crystal model survived, and return the three-beam
experiment list for it. -/
def find_lattices (chooseBest : List CandidateMat → Option CandidateMat)
    (beams : List ℚ) (target : UnitCellP) (cands : List CandidateMat) :
    LatticeOutcome :=
  match grid_search_models chooseBest target cands with
  | [c] => .found (experiment_list_for_crystal beams c)
  | _ => .assertionError

/-- Target cell and candidate for the C1 concrete instances: the candidate's
first edge is more than 5 percent away from the target's, so the magnitude
filter rejects it and no candidate survives. -/
def counterTarget : UnitCellP := ⟨79, 79, 38, 90, 90, 90⟩

/-- Sole candidate orientation matrix for the C1 concrete instances. -/
def counterCand : CandidateMat := ⟨⟨100, 79, 38, 90, 90, 90⟩⟩

lemma counter_filter_empty :
    two_color_filter counterTarget [counterCand] = [] := by
  have hedge : edge_ok counterTarget.a counterCand.cell.a = false := by
    simp only [edge_ok, FILTER_TOL, counterTarget, counterCand,
      Bool.and_eq_false_iff, decide_eq_false_iff_not, not_lt]
    right
    norm_num
  simp [two_color_filter, List.filter, filter_by_mag_ok, hedge]

/-- Counterexample for C1: with every candidate filtered out, the search
leaves candidate_crystal_models empty without error, and find_lattices then
fails on `assert len(crystal_models) == 1` - a generic assertion - rather
than surfacing the typed no-lattice-found outcome the claim asserts. -/
theorem find_lattices_counterexample :
    two_color_filter counterTarget [counterCand] = [] ∧
    find_lattices List.head? [1, 2, 3] counterTarget [counterCand] =
      LatticeOutcome.assertionError ∧
    find_lattices List.head? [1, 2, 3] counterTarget [counterCand] ≠
      LatticeOutcome.noLatticeFound := by
  have h2 : find_lattices List.head? [1, 2, 3] counterTarget [counterCand] =
      LatticeOutcome.assertionError := by
    simp [find_lattices, grid_search_models, counter_filter_empty]
  refine ⟨counter_filter_empty, h2, ?_⟩
  rw [h2]
  decide

/-- C1 as amended: when the magnitude filter removes every candidate
orientation matrix, the grid search itself completes (with an empty model
list) for any best-candidate scorer that only picks elements of its input,
and find_lattices then raises the assertion error of
`assert len(crystal_models) == 1` instead of returning a typed
"no lattice found" result. -/
theorem find_lattices_empty_filter_assertion
    (chooseBest : List CandidateMat → Option CandidateMat) (beams : List ℚ)
    (target : UnitCellP) (cands : List CandidateMat)
    (hcb : ∀ (l : List CandidateMat) (c : CandidateMat),
      chooseBest l = some c → c ∈ l)
    (hempty : two_color_filter target cands = []) :
    find_lattices chooseBest beams target cands =
      LatticeOutcome.assertionError := by
  have hnone : chooseBest (two_color_filter target cands) = none := by
    rw [hempty]
    cases hc : chooseBest [] with
    | none => rfl
    | some c => exact absurd (hcb [] c hc) (List.not_mem_nil c)
  unfold find_lattices grid_search_models
  rw [hnone]

/-- Witness for C1's amended theorem at the concrete filtered-out instance,
with the external scorer modelled as List.head?. -/
theorem find_lattices_empty_filter_assertion_witness :
    find_lattices List.head? [1, 2] counterTarget [counterCand] =
      LatticeOutcome.assertionError :=
  find_lattices_empty_filter_assertion List.head? [1, 2] counterTarget
    [counterCand]
    (fun l c hc => by
      cases l with
      | nil => cases hc
      | cons a t =>
        have ha : a = c := by
          simpa [List.head?] using hc
        rw [← ha]
        exact List.mem_cons_self a t)
    counter_filter_empty

end TwoColor

namespace TwoColor

/-! ### Final consolidation, indexer_two_color.index (lines 279-292) -/

/-- Row of the refined reflection table as the consolidation reads it:
`idx` identifies the row (its position in the original table), `id` is the
experiment-id column. -/
structure ReflRow where
  idx : ℕ
  id : ℤ
deriving DecidableEq

/-- One iteration of the consolidation loop body (lines 286-288): select the
rows whose id equals e_number or equals 2, then renumber them all to
e_number. -/
def e_select (e_number : ℤ) (refls : List ReflRow) : List ReflRow :=
  (refls.filter (fun r => r.id == e_number || r.id == 2)).map
    (fun r => { r with id := e_number })

/-- indexer_two_color.index consolidation (lines 282-292): the loop runs
e_number = 0, 1, ... over the refined experiments but breaks after
processing e_number = 1, so at most the first two experiments contribute,
their selections concatenated in order. -/
def index_consolidate (n_exps : ℕ) (refls : List ReflRow) : List ReflRow :=
  if n_exps = 0 then []
  else if n_exps = 1 then e_select 0 refls
  else e_select 0 refls ++ e_select 1 refls

lemma countP_congr_on {α : Type} (l : List α) (p q : α → Bool)
    (h : ∀ a ∈ l, p a = q a) : l.countP p = l.countP q := by
  induction l with
  | nil => rfl
  | cons a t ih =>
    simp only [List.countP_cons, h a (List.mem_cons_self a t),
      ih (fun x hx => h x (List.mem_cons_of_mem a hx))]

lemma e_select_mem_of_id2 (e_number : ℤ) (refls : List ReflRow) (r : ReflRow)
    (hr : r ∈ refls) (h2 : r.id = 2) :
    ({ r with id := e_number } : ReflRow) ∈ e_select e_number refls := by
  refine List.mem_map_of_mem _ (List.mem_filter.mpr ⟨hr, ?_⟩)
  simp [h2]

lemma e_select_countP_idx (e_number : ℤ) (refls : List ReflRow) (r : ReflRow)
    (hr : r ∈ refls) (h2 : r.id = 2)
    (huniq : ∀ x ∈ refls, x.idx = r.idx → x = r)
    (hcount : refls.countP (fun x => x == r) = 1) :
    (e_select e_number refls).countP (fun x => x.idx == r.idx) = 1 := by
  unfold e_select
  rw [List.countP_map, List.countP_filter]
  have hpt : ∀ x ∈ refls,
      (((fun y : ReflRow => y.idx == r.idx) ∘
          (fun y : ReflRow => { y with id := e_number })) x &&
        (x.id == e_number || x.id == 2)) = (x == r) := by
    intro x hx
    by_cases hidx : x.idx = r.idx
    · have hxr : x = r := huniq x hx hidx
      subst hxr
      simp [h2]
    · have hxr : ¬(x = r) := fun hh => hidx (by rw [hh])
      simp only [Function.comp]
      have h1 : (x.idx == r.idx) = false := by
        exact beq_eq_false_iff_ne.mpr hidx
      have hbr : (x == r) = false := beq_eq_false_iff_ne.mpr hxr
      simp [h1, hbr]
  rw [countP_congr_on refls _ _ hpt, hcount]

/-- C8. In the final consolidation, when at least two refined experiments
exist, every reflection with id 2 (overlap) is selected into both refined
experiment 0 and refined experiment 1: the output table contains it once
relabeled with id 0 and once with id 1, and (when the row is unique in the
input) exactly those two copies carry its row index. -/
theorem index_consolidate_overlap_both (n_exps : ℕ) (refls : List ReflRow)
    (r : ReflRow) (hn : 2 ≤ n_exps) (hr : r ∈ refls) (h2 : r.id = 2)
    (huniq : ∀ x ∈ refls, x.idx = r.idx → x = r)
    (hcount : refls.countP (fun x => x == r) = 1) :
    ({ r with id := 0 } : ReflRow) ∈ index_consolidate n_exps refls ∧
    ({ r with id := 1 } : ReflRow) ∈ index_consolidate n_exps refls ∧
    (index_consolidate n_exps refls).countP (fun x => x.idx == r.idx) = 2 := by
  have hform : index_consolidate n_exps refls =
      e_select 0 refls ++ e_select 1 refls := by
    unfold index_consolidate
    rw [if_neg (by omega), if_neg (by omega)]
  rw [hform]
  refine ⟨?_, ?_, ?_⟩
  · exact List.mem_append_left _ (e_select_mem_of_id2 0 refls r hr h2)
  · exact List.mem_append_right _ (e_select_mem_of_id2 1 refls r hr h2)
  · rw [List.countP_append,
      e_select_countP_idx 0 refls r hr h2 huniq hcount,
      e_select_countP_idx 1 refls r hr h2 huniq hcount]

/-- Witness for C8 at a one-row table holding a single overlap reflection and
two refined experiments. -/
theorem index_consolidate_overlap_both_witness :
    ({ idx := 5, id := 0 } : ReflRow) ∈ index_consolidate 2 [⟨5, 2⟩] ∧
    ({ idx := 5, id := 1 } : ReflRow) ∈ index_consolidate 2 [⟨5, 2⟩] ∧
    (index_consolidate 2 [⟨5, 2⟩]).countP
      (fun x => x.idx == (⟨5, 2⟩ : ReflRow).idx) = 2 :=
  index_consolidate_overlap_both 2 [⟨5, 2⟩] ⟨5, 2⟩ (by omega)
    (List.mem_cons_self _ _) rfl
    (by decide) (by decide)

end TwoColor
